import Mathlib

/-!
Verification of the rust-raop-player streaming core against its
natural-language specification.  The Rust sources embedded here are
`src/ntp.rs`, `src/rtsp_client.rs` and `src/sync_controller.rs`.
Machine integers are modelled as `Nat` with explicit reductions
modulo `2 ^ w` wherever the Rust arithmetic wraps.
-/

namespace Raop

/-! ## NTP time (`src/ntp.rs`) -/

/-- `NtpTime` from `ntp.rs` lines 12-16: a pair of `u32` fields.
We model the `u32` fields as `Nat`; theorems that need the machine
bound carry `< 2 ^ 32` hypotheses. -/
structure NtpTime where
  seconds : Nat
  fraction : Nat
  deriving DecidableEq, Repr

/-- The 64-bit value `(seconds << 32) | fraction` used throughout
`ntp.rs` (lines 31, 36).  For `fraction < 2 ^ 32` the bitwise `|`
coincides with addition, which is how we write it. -/
def NtpTime.ntp64 (t : NtpTime) : Nat :=
  t.seconds * 2 ^ 32 + t.fraction

/-- `into_timestamp` from `ntp.rs` lines 35-38:
`Frames::new(((ntp >> 16) * u64::from(sample_rate)) >> 16)`.
The multiplication is `u64` arithmetic, hence the reduction modulo
`2 ^ 64`; `Frames` is modelled from the spec as a plain unsigned
count, so `Frames::new` is the identity on the numeric value. -/
def NtpTime.into_timestamp (t : NtpTime) (sample_rate : Nat) : Nat :=
  ((t.ntp64 / 2 ^ 16) * sample_rate % 2 ^ 64) / 2 ^ 16

/-- `from_timestamp` from `ntp.rs` lines 40-47:
`ntp = ((ts << 16) / sample_rate) << 16`, then split into the two
`u32` halves. -/
def NtpTime.from_timestamp (ts : Nat) (sample_rate : Nat) : NtpTime :=
  let ntp := (ts * 2 ^ 16 / sample_rate) * 2 ^ 16 % 2 ^ 64
  { seconds := ntp / 2 ^ 32, fraction := ntp % 2 ^ 32 }

/-- The `Sub` impl for `NtpTime`, `ntp.rs` lines 50-72, up to the
final conversion into `std::time::Duration`.  `none` models the two
`panic!("Cannot create negative durations")` calls; `some (secs, fraction)`
is the pair computed on lines 62-66 that is then fed (through a
floating-point scaling that does not affect definedness, and a
`Duration::new` that cannot panic since `secs < 2 ^ 32`) into the
returned duration.  `std::u32::MAX` is `2 ^ 32 - 1`. -/
def NtpTime.sub (a b : NtpTime) : Option (Nat × Nat) :=
  if a.seconds < b.seconds then
    none
  else if a.seconds = b.seconds ∧ a.fraction < b.fraction then
    none
  else if a.fraction < b.fraction then
    some (a.seconds - b.seconds - 1, (2 ^ 32 - 1) - b.fraction + a.fraction)
  else
    some (a.seconds - b.seconds, a.fraction - b.fraction)

/-- Big-endian serialization of a `u32` into four bytes, as done by
`write_u32::<BE>` (`ntp.rs` line 91-92). -/
def u32BeBytes (x : Nat) : List Nat :=
  [x / 2 ^ 24 % 2 ^ 8, x / 2 ^ 16 % 2 ^ 8, x / 2 ^ 8 % 2 ^ 8, x % 2 ^ 8]

/-- `Serializable::serialize` for `NtpTime`, `ntp.rs` lines 90-93:
seconds then fraction, each big-endian `u32`. -/
def NtpTime.serialize (t : NtpTime) : List Nat :=
  u32BeBytes t.seconds ++ u32BeBytes t.fraction

/-- `Deserializable::deserialize` for `NtpTime`, `ntp.rs` lines 77-82:
two big-endian `u32` reads; fails (an `io` error) when fewer than
8 bytes are available. -/
def NtpTime.deserialize (bytes : List Nat) : Option NtpTime :=
  match bytes with
  | b0 :: b1 :: b2 :: b3 :: b4 :: b5 :: b6 :: b7 :: _ =>
      some { seconds := ((b0 * 2 ^ 8 + b1) * 2 ^ 8 + b2) * 2 ^ 8 + b3,
             fraction := ((b4 * 2 ^ 8 + b5) * 2 ^ 8 + b6) * 2 ^ 8 + b7 }
  | _ => none

/-- `Deserializable::SIZE` for `NtpTime` (`ntp.rs` line 75). -/
def NtpTime.SIZE : Nat := 8

end Raop

namespace Raop

/-! ## Sync controller (`src/sync_controller.rs`) -/

/-- `MAX_BACKLOG`.  Modelled from the spec: the constant is declared in
`raop_client.rs`, which is not among the supplied sources; spec section 3
fixes it as a power of two, e.g. 512. -/
def MAX_BACKLOG : Nat := 512

/-- A backlog slot entry.  Modelled from the spec (section 3,
`BacklogEntry`), since the declaring file `raop_client.rs` is not among
the supplied sources: `(seq_number: u16, ts: Frames, packet: bytes)`.
The `u16` sequence number is a `Nat` kept below `2 ^ 16` by its writers. -/
structure BacklogEntry where
  seq_number : Nat
  ts : Nat
  packet : List Nat
  deriving DecidableEq, Repr

/-- What the retransmit responder does for one requested sequence
number (`sync_controller.rs` lines 98-111): `sent p` models wrapping
the stored packet bytes `p` in a retransmission envelope
(`RtpAudioRetransmissionPacket::wrap`, per the spec a 4-byte wrapper
followed by the original bytes), sending it on the control socket and
incrementing the global retransmit counter; `missed` models the
`missed += 1` branch; `outOfBacklog` models the
`warn!("lost packet out of backlog")` branch.  Nothing is sent in the
last two cases. -/
inductive RetransmitAction where
  | sent (packet : List Nat)
  | missed
  | outOfBacklog
  deriving DecidableEq, Repr

/-- The handling of one requested sequence number `s`, from
`sync_controller.rs` lines 96-111.  The index is `s % MAX_BACKLOG`
(line 96); the guard on line 98 is
`backlog[index].as_ref().map(|e| e.seq_number).unwrap_or(0) == s`,
so an empty slot compares as seq 0; inside it, line 99 re-matches the
slot: a stored entry is sent, an empty slot counts as missed
(lines 105-108); the outer `else` is the out-of-backlog log (line 110). -/
def serviceSeq (backlog : List (Option BacklogEntry)) (s : Nat) :
    RetransmitAction :=
  if ((backlog.getD (s % MAX_BACKLOG) none).map
      (fun e => e.seq_number)).getD 0 = s then
    match backlog.getD (s % MAX_BACKLOG) none with
    | some entry => RetransmitAction.sent entry.packet
    | none => RetransmitAction.missed
  else
    RetransmitAction.outOfBacklog

/-- The scan over a lost-packet request, `sync_controller.rs`
lines 92-113: `for i in 0..lost.n`, each requested sequence number is
`lost.seq_number + i` in `u16` arithmetic, i.e. reduced modulo `2 ^ 16`
(release-mode wrapping semantics).  The `u16` field types of
`RtpLostPacket` are forced by the comparison against the `u16`
`BacklogEntry.seq_number` and by the 8-byte wire layout in the spec.
Each list element records the serviced (wrapped) sequence number and
the action taken for it. -/
def processLost (backlog : List (Option BacklogEntry))
    (seq_number n : Nat) : List (Nat × RetransmitAction) :=
  (List.range n).map (fun i =>
    let s := (seq_number + i) % 2 ^ 16
    (s, serviceSeq backlog s))

end Raop

namespace Raop

/-! ## Sync emitter lock discipline (`send_sync_every_second`) -/

/-- The statements of one iteration of the `send_sync_every_second`
loop (`sync_controller.rs` lines 120-132), in source order: the
`status_mutex.lock()` on line 122, the read of `status.head_ts` while
building the SYNC packet on line 125, the control-socket send through
`send_sync_paket` on line 126, the `drop(status)` releasing the guard
on line 129, and the one-second `delay_for` on line 131. -/
inductive SyncInstr where
  | lockStatus
  | readHeadTs
  | sendControl
  | unlockStatus
  | delaySecond
  deriving DecidableEq, Repr

/-- One loop iteration of `send_sync_every_second`, as the sequence of
its statements in source order. -/
def syncLoopBody : List SyncInstr :=
  [SyncInstr.lockStatus, SyncInstr.readHeadTs, SyncInstr.sendControl,
   SyncInstr.unlockStatus, SyncInstr.delaySecond]

/-- Interpreter for `SyncInstr` sequences: tracks whether the status
mutex is held, recording for each instruction the lock state in effect
while it executes (a lock is in effect from the `lockStatus`
instruction on, and no longer in effect from `unlockStatus` on). -/
def runLockTrace : List SyncInstr → Bool → List (SyncInstr × Bool)
  | [], _ => []
  | i :: rest, held =>
    let heldDuring :=
      match i with
      | SyncInstr.lockStatus => true
      | SyncInstr.unlockStatus => false
      | _ => held
    (i, heldDuring) :: runLockTrace rest heldDuring

end Raop

namespace Raop

/-! ## RTSP client (`src/rtsp_client.rs`)

The client is modelled as a state record plus pure functions: request
emission (`requestLines`), response handling (`execResponse`) and the
operation wrappers.  Socket reads are replaced by a response script;
`write_all` failure is the script's `write_ok = false`.  Rust string
helpers (`splitn`, `trim`, `to_lowercase`, `parse::<usize>`) are given
structural re-implementations over character lists so that concrete
instances evaluate inside the kernel; the inputs involved are ASCII, on
which they agree with the Rust originals. -/

/-- Rust `str::splitn(n, sep)` for a character separator: at most `n`
pieces, splitting at the first `n - 1` occurrences of `sep`; the last
piece keeps any remaining separators.  `splitsLeft` counts the splits
still allowed. -/
def splitnAux (sep : Char) : List Char → Nat → List Char → List String
  | [], _, acc => [String.mk acc.reverse]
  | c :: cs, splitsLeft, acc =>
    if c = sep ∧ splitsLeft ≠ 0 then
      String.mk acc.reverse :: splitnAux sep cs (splitsLeft - 1) []
    else
      splitnAux sep cs splitsLeft (c :: acc)

/-- Rust `str::splitn(n, sep)` on a whole string. -/
def rustSplitn (n : Nat) (sep : Char) (s : String) : List String :=
  if n = 0 then [] else splitnAux sep s.data (n - 1) []

/-- Rust `str::trim` (ASCII whitespace suffices for the inputs used). -/
def rustTrim (s : String) : String :=
  String.mk
    (((s.data.dropWhile Char.isWhitespace).reverse.dropWhile
      Char.isWhitespace).reverse)

/-- Rust `str::to_lowercase` restricted to ASCII. -/
def asciiLower (s : String) : String :=
  String.mk (s.data.map (fun c =>
    if 'A' ≤ c ∧ c ≤ 'Z' then Char.ofNat (c.toNat + 32) else c))

/-- Rust `str::parse::<usize>` (digits only). -/
def rustParseUsize (s : String) : Option Nat :=
  if s.data ≠ [] ∧ s.data.all (fun c => c.isDigit) then
    some (s.data.foldl (fun acc c => acc * 10 + (c.toNat - 48)) 0)
  else
    none

/-- The `RTSPClient` fields that survive between requests
(`rtsp_client.rs` lines 23-30), minus the socket: session URL, CSeq
counter (a `u64`, far from wrapping here), persistent headers, session
token, user agent. -/
structure ClientState where
  url : String
  cseq : Nat
  headers : List (String × String)
  session : Option String
  user_agent : String
  deriving DecidableEq, Repr

/-- The request body enum (`rtsp_client.rs` lines 17-21). -/
inductive Body where
  | text (content_type content : String)
  | blob (content_type : String) (content : List Nat)
  | none
  deriving DecidableEq, Repr

/-- The header section of the request built by `exec_request`
(`rtsp_client.rs` lines 211-243), one list element per CRLF-terminated
`write!` line, in source order: request line (line 215); caller headers
(217-219); `Content-Type` and `Content-Length` for a text or blob body
(221-229); `CSeq` with the incremented counter (231-232);
`User-Agent` (233); persistent headers (235-237); `Session` when a
token is stored (239-241).  The blank line and the body bytes follow
the listed lines on the wire and are not part of this list. -/
def requestLines (st : ClientState) (cmd : String) (body : Body)
    (headers : List (String × String)) (url : Option String) :
    List String :=
  [cmd ++ " " ++ url.getD st.url ++ " RTSP/1.0"]
    ++ headers.map (fun kv => kv.1 ++ ": " ++ kv.2)
    ++ (match body with
        | Body.text ct content =>
            ["Content-Type: " ++ ct,
             "Content-Length: " ++ toString content.utf8ByteSize]
        | Body.blob ct content =>
            ["Content-Type: " ++ ct,
             "Content-Length: " ++ toString content.length]
        | Body.none => [])
    ++ ["CSeq: " ++ toString (st.cseq + 1)]
    ++ ["User-Agent: " ++ st.user_agent]
    ++ st.headers.map (fun kv => kv.1 ++ ": " ++ kv.2)
    ++ (match st.session with
        | some tok => ["Session: " ++ tok]
        | none => [])

/-- The scripted peer for one request: whether the socket write
succeeds, then the status line, the header lines (each as delivered by
`read_line`, i.e. still carrying `\r\n`), and the body bytes. -/
structure ResponseScript where
  write_ok : Bool
  status_line : String
  header_lines : List String
  body : String
  deriving DecidableEq, Repr

/-- Outcome of `exec_request`: the `Ok((headers, content))` return, a
transport (`io`) error propagated with `?`, or a panic. -/
inductive ReqOutcome where
  | ok (headers : List (String × String)) (content : String)
  | ioError
  | panicked (msg : String)
  deriving DecidableEq, Repr

/-- One response header line (`rtsp_client.rs` lines 286-288):
`line.splitn(2, ':')` with both parts trimmed; a line without `:`
makes `parts.next().unwrap()` panic, modelled as `none`. -/
def parseHeaderLine (line : String) : Option (String × String) :=
  match rustSplitn 2 ':' line with
  | k :: v :: _ => some (rustTrim k, rustTrim v)
  | _ => none

/-- The response header loop (`rtsp_client.rs` lines 275-295): read
lines until a blank one, collect `(key, value)` pairs in order, and
remember the last `Content-Length` value (case-insensitive key,
`parse().unwrap()` panicking on a non-numeric value, modelled as
`none`). -/
def parseHeadersLoop : List String → List (String × String) → Nat →
    Option (List (String × String) × Nat)
  | [], acc, cl => some (acc.reverse, cl)
  | line :: rest, acc, cl =>
    if rustTrim line = "" then some (acc.reverse, cl)
    else
      match parseHeaderLine line with
      | Option.none => Option.none
      | some kv =>
          if asciiLower kv.1 = "content-length" then
            match rustParseUsize kv.2 with
            | Option.none => Option.none
            | some n => parseHeadersLoop rest (kv :: acc) n
          else
            parseHeadersLoop rest (kv :: acc) cl

/-- The response phase of `exec_request` (`rtsp_client.rs`
lines 253-308): propagate a failed socket write; read the status line
and take its second space-separated token (line 265,
`splitn(3, ' ').skip(1).next().unwrap()`); panic with
"request failed" when the token is not `"200"` (lines 267-269); then
parse headers, and deliver the body only when a positive
`Content-Length` was seen (lines 297-308). -/
def execResponse (resp : ResponseScript) : ReqOutcome :=
  if resp.write_ok = false then ReqOutcome.ioError
  else
    match (rustSplitn 3 ' ' resp.status_line).get? 1 with
    | Option.none => ReqOutcome.panicked "status line unwrap"
    | some status =>
      if status ≠ "200" then ReqOutcome.panicked "request failed"
      else
        match parseHeadersLoop resp.header_lines [] 0 with
        | Option.none => ReqOutcome.panicked "header unwrap"
        | some (hs, cl) =>
            if cl = 0 then ReqOutcome.ok hs ""
            else ReqOutcome.ok hs resp.body

/-- `exec_request` (`rtsp_client.rs` lines 210-309) against a scripted
peer: the emitted request lines, the client state afterwards — the only
field written is `cseq`, incremented on line 231 before the request is
written — and the outcome. -/
def execRequest (st : ClientState) (cmd : String) (body : Body)
    (headers : List (String × String)) (url : Option String)
    (resp : ResponseScript) :
    List String × ClientState × ReqOutcome :=
  (requestLines st cmd body headers url,
   { st with cseq := st.cseq + 1 },
   execResponse resp)

/-- Outcome of `setup`. -/
inductive SetupOutcome where
  | ok (headers : List (String × String))
  | ioError
  | panicked (msg : String)
  deriving DecidableEq, Repr

/-- The `Transport` header value built on `rtsp_client.rs` line 148. -/
def transportHeader (control_port timing_port : Nat) : String :=
  "RTP/AVP/UDP;unicast;interleaved=0-1;mode=record;control_port=" ++
    toString control_port ++ ";timing_port=" ++ toString timing_port

/-- `setup` (`rtsp_client.rs` lines 147-161): run the SETUP request;
on success search the response headers case-insensitively for
`session` (line 150); store its value as the session token (line 153)
or panic with "no session in response" (line 157). -/
def setup (st : ClientState) (control_port timing_port : Nat)
    (resp : ResponseScript) : ClientState × SetupOutcome :=
  let r := execRequest st "SETUP" Body.none
      [("Transport", transportHeader control_port timing_port)] none resp
  match r.2.2 with
  | ReqOutcome.ok hs _ =>
      match hs.find? (fun h => asciiLower h.1 = "session") with
      | some h => ({ r.2.1 with session := some h.2 }, SetupOutcome.ok hs)
      | Option.none => (r.2.1, SetupOutcome.panicked "no session in response")
  | ReqOutcome.ioError => (r.2.1, SetupOutcome.ioError)
  | ReqOutcome.panicked m => (r.2.1, SetupOutcome.panicked m)

end Raop

namespace Raop

/-- The RTSP operations that execute a request on the session
(`rtsp_client.rs` lines 52-193), with the arguments that shape the
request.  `pair_verify` and `auth_setup` also run `exec_request`
(twice resp. once, with a blob body and an override URL) but involve
crypto outputs; their requests go through the same `exec_request` path
modelled here. -/
inductive RtspOp where
  | options (headers : List (String × String))
  | announce_sdp (sdp : String)
  | setup (control_port timing_port : Nat)
  | record (start_seq start_ts : Nat)
  | set_parameter (param : String)
  | set_meta_data (timestamp : Nat) (meta : List Nat)
  | flush (seq_number timestamp : Nat)
  | teardown
  deriving DecidableEq, Repr

/-- The `(cmd, body, headers, url)` quadruple each operation passes to
`exec_request`, read off the corresponding method bodies. -/
def opRequestParts : RtspOp →
    String × Body × List (String × String) × Option String
  | RtspOp.options hs => ("OPTIONS", Body.none, hs, some "*")
  | RtspOp.announce_sdp sdp =>
      ("ANNOUNCE", Body.text "application/sdp" sdp, [], none)
  | RtspOp.setup cp tp =>
      ("SETUP", Body.none, [("Transport", transportHeader cp tp)], none)
  | RtspOp.record sq ts =>
      ("RECORD", Body.none,
        [("Range", "npt=0-"),
         ("RTP-Info",
           "seq=" ++ toString sq ++ ";rtptime=" ++ toString ts)], none)
  | RtspOp.set_parameter p =>
      ("SET_PARAMETER", Body.text "text/parameters" p, [], none)
  | RtspOp.set_meta_data ts meta =>
      ("SET_PARAMETER", Body.blob "application/x-dmap-tagged" meta,
        [("RTP-Info", "rtptime=" ++ toString ts)], none)
  | RtspOp.flush sq ts =>
      ("FLUSH", Body.none,
        [("RTP-Info",
           "seq=" ++ toString sq ++ ";rtptime=" ++ toString ts)], none)
  | RtspOp.teardown => ("TEARDOWN", Body.none, [], none)

/-- One operation against a scripted response: the emitted request
lines (`none` when `record` panics on a missing session before
emitting anything, `rtsp_client.rs` lines 164-167), the state
afterwards, and whether execution can continue (`false` after a panic
or a propagated transport error). `setup` routes through `setup` for
its session side effect. -/
def runOp (st : ClientState) (op : RtspOp) (resp : ResponseScript) :
    Option (List String) × ClientState × Bool :=
  match op with
  | RtspOp.setup cp tp =>
      let req := requestLines st "SETUP" Body.none
        [("Transport", transportHeader cp tp)] none
      let r := setup st cp tp resp
      (some req, r.1,
        match r.2 with
        | SetupOutcome.ok _ => true
        | _ => false)
  | RtspOp.record sq ts =>
      if st.session.isNone then (none, st, false)
      else
        let parts := opRequestParts (RtspOp.record sq ts)
        let r := execRequest st parts.1 parts.2.1 parts.2.2.1
          parts.2.2.2 resp
        (some r.1, r.2.1,
          match r.2.2 with
          | ReqOutcome.ok _ _ => true
          | _ => false)
  | _ =>
      let parts := opRequestParts op
      let r := execRequest st parts.1 parts.2.1 parts.2.2.1
        parts.2.2.2 resp
      (some r.1, r.2.1,
        match r.2.2 with
        | ReqOutcome.ok _ _ => true
        | _ => false)

/-- A scripted session run: for each executed operation, the session
token in effect while its request was emitted, paired with the emitted
request lines.  The trace stops after an operation that panics or
propagates an error (any request it emitted before failing is still
recorded). -/
def runOps (st : ClientState) :
    List (RtspOp × ResponseScript) → List (Option String × List String)
  | [] => []
  | (op, resp) :: rest =>
    match runOp st op resp with
    | (Option.none, _, _) => []
    | (some req, st', cont) =>
        (st.session, req) :: (if cont then runOps st' rest else [])

end Raop

namespace Raop

/-! ## Helper lemmas -/

/-- Case-split form of `serviceSeq`, making the effect of the
`unwrap_or(0)` explicit. -/
theorem serviceSeq_spec (backlog : List (Option BacklogEntry)) (s : Nat) :
    serviceSeq backlog s =
      match backlog.getD (s % MAX_BACKLOG) none with
      | some e =>
          if e.seq_number = s then RetransmitAction.sent e.packet
          else RetransmitAction.outOfBacklog
      | none =>
          if s = 0 then RetransmitAction.missed
          else RetransmitAction.outOfBacklog := by
  unfold serviceSeq
  cases h : backlog.getD (s % MAX_BACKLOG) none with
  | none =>
      simp only [Option.map_none', Option.getD_none]
      split_ifs <;> first | rfl | (exfalso; omega)
  | some e =>
      simp only [Option.map_some', Option.getD_some]

end Raop

namespace Raop

/-! ## Theorems about `ntp.rs` -/

/-- C6 counterexample: the claim says the Unix epoch
`NtpTime{seconds = 0x83AA7E80, fraction = 0}` converts to 0 frames at
rate 44100.  `into_timestamp` performs no epoch subtraction, so the
result is `0x83AA7E80 * 44100`, not 0. -/
theorem C6_counterexample :
    NtpTime.into_timestamp ⟨0x83AA7E80, 0⟩ 44100 ≠ 0 := by decide

/-- C6 (amended): `into_timestamp` converts the absolute NTP value, so
the Unix epoch maps to `0x83AA7E80 * 44100 = 97416406080000` frames,
and incrementing `seconds` by one adds exactly 44100 frames. -/
theorem C6_into_timestamp_epoch :
    NtpTime.into_timestamp ⟨0x83AA7E80, 0⟩ 44100 = 97416406080000 ∧
    NtpTime.into_timestamp ⟨0x83AA7E80 + 1, 0⟩ 44100 =
      NtpTime.into_timestamp ⟨0x83AA7E80, 0⟩ 44100 + 44100 := by decide

/-- C8: `NtpTime` subtraction `a - b` is defined (returns a duration
rather than panicking) exactly when `a ≥ b` in the lexicographic order
comparing `seconds` then `fraction`. -/
theorem C8_sub_defined_iff (a b : NtpTime) :
    (NtpTime.sub a b).isSome ↔
      (b.seconds < a.seconds ∨
        (b.seconds = a.seconds ∧ b.fraction ≤ a.fraction)) := by
  unfold NtpTime.sub
  split_ifs with h1 h2 h3 <;> simp <;> omega

/-- C9: serializing an `NtpTime` produces exactly 8 bytes (the declared
`SIZE`), each a valid byte value, laid out as big-endian seconds then
big-endian fraction, and deserializing them returns the original value. -/
theorem C9_ntp_roundtrip (t : NtpTime)
    (hs : t.seconds < 2 ^ 32) (hf : t.fraction < 2 ^ 32) :
    t.serialize.length = 8 ∧
    t.serialize.length = NtpTime.SIZE ∧
    (∀ b ∈ t.serialize, b < 2 ^ 8) ∧
    NtpTime.deserialize t.serialize = some t := by
  obtain ⟨s, f⟩ := t
  dsimp only at hs hf
  refine ⟨rfl, rfl, ?_, ?_⟩
  · simp only [NtpTime.serialize, u32BeBytes, List.mem_append, List.mem_cons,
      List.not_mem_nil, or_false]
    intro b hb
    omega
  · simp only [NtpTime.serialize, u32BeBytes, List.cons_append, List.nil_append,
      NtpTime.deserialize, Option.some.injEq, NtpTime.mk.injEq]
    constructor <;> omega

/-- C9 witness: the round-trip theorem applied at a concrete time value. -/
theorem C9_ntp_roundtrip_witness :
    (0x83AA7E80 : Nat) < 2 ^ 32 ∧ (5 : Nat) < 2 ^ 32 ∧
    ((NtpTime.mk 0x83AA7E80 5).serialize.length = 8 ∧
     (NtpTime.mk 0x83AA7E80 5).serialize.length = NtpTime.SIZE ∧
     (∀ b ∈ (NtpTime.mk 0x83AA7E80 5).serialize, b < 2 ^ 8) ∧
     NtpTime.deserialize (NtpTime.mk 0x83AA7E80 5).serialize =
       some (NtpTime.mk 0x83AA7E80 5)) :=
  ⟨by decide, by decide,
    C9_ntp_roundtrip (NtpTime.mk 0x83AA7E80 5) (by decide) (by decide)⟩

/-- C10: in `NtpTime` subtraction with `a ≥ b`, the borrow case
(`a.fraction < b.fraction`) computes the fraction difference as
`(2 ^ 32 - 1) - b.fraction + a.fraction`, one `2 ^ -32` unit less than
the exact 64-bit difference, while the non-borrow case is exact. -/
theorem C10_sub_borrow (a b : NtpTime)
    (ha : a.fraction < 2 ^ 32) (hb : b.fraction < 2 ^ 32)
    (hge : b.seconds < a.seconds ∨
      (b.seconds = a.seconds ∧ b.fraction ≤ a.fraction)) :
    ∃ s f, NtpTime.sub a b = some (s, f) ∧
      (a.fraction < b.fraction →
        f = (2 ^ 32 - 1) - b.fraction + a.fraction ∧
        s * 2 ^ 32 + f + 1 = a.ntp64 - b.ntp64) ∧
      (b.fraction ≤ a.fraction →
        s * 2 ^ 32 + f = a.ntp64 - b.ntp64) := by
  simp only [NtpTime.ntp64, NtpTime.sub]
  split_ifs with h1 h2 h3
  · exfalso; omega
  · exfalso; omega
  · refine ⟨_, _, rfl, fun _ => ⟨rfl, ?_⟩, fun hle => ?_⟩ <;> omega
  · refine ⟨_, _, rfl, fun h => absurd h h3, fun _ => ?_⟩
    omega

/-- C10 witness: the borrow-case characterisation applied at
`a = 2.0, b = 1.(2^-32)` seconds. -/
theorem C10_sub_borrow_witness :
    (0 : Nat) < 2 ^ 32 ∧ (1 : Nat) < 2 ^ 32 ∧
    ((1 : Nat) < 2 ∨ ((1 : Nat) = 2 ∧ (1 : Nat) ≤ 0)) ∧
    (∃ s f, NtpTime.sub ⟨2, 0⟩ ⟨1, 1⟩ = some (s, f) ∧
      ((NtpTime.mk 2 0).fraction < (NtpTime.mk 1 1).fraction →
        f = (2 ^ 32 - 1) - (NtpTime.mk 1 1).fraction +
            (NtpTime.mk 2 0).fraction ∧
        s * 2 ^ 32 + f + 1 =
          (NtpTime.mk 2 0).ntp64 - (NtpTime.mk 1 1).ntp64) ∧
      ((NtpTime.mk 1 1).fraction ≤ (NtpTime.mk 2 0).fraction →
        s * 2 ^ 32 + f = (NtpTime.mk 2 0).ntp64 - (NtpTime.mk 1 1).ntp64)) :=
  ⟨by decide, by decide, by decide,
    C10_sub_borrow ⟨2, 0⟩ ⟨1, 1⟩ (by decide) (by decide) (by decide)⟩

end Raop

namespace Raop

/-- C3: a lost-packet request whose range `[first_seq, first_seq + n)`
crosses the `2 ^ 16` wrap boundary is serviced in full: the scan
produces one action per requested sequence number, never aborting, and
the `i`-th requested number is `(first_seq + i) mod 2 ^ 16`, looked up
in the backlog slot at that number reduced modulo `MAX_BACKLOG` with
the stored-entry / empty-slot / stale-slot outcomes of the source. -/
theorem C3_lost_request_wrap (backlog : List (Option BacklogEntry))
    (seq_number n : Nat)
    (hseq : seq_number < 2 ^ 16) (hn : n < 2 ^ 16)
    (hcross : 2 ^ 16 < seq_number + n) :
    (processLost backlog seq_number n).length = n ∧
    ∀ i, i < n →
      (processLost backlog seq_number n).get? i =
        some ((seq_number + i) % 2 ^ 16,
          match backlog.getD (((seq_number + i) % 2 ^ 16) % MAX_BACKLOG)
              none with
          | some e =>
              if e.seq_number = (seq_number + i) % 2 ^ 16 then
                RetransmitAction.sent e.packet
              else RetransmitAction.outOfBacklog
          | none =>
              if (seq_number + i) % 2 ^ 16 = 0 then RetransmitAction.missed
              else RetransmitAction.outOfBacklog) := by
  constructor
  · simp [processLost]
  · intro i hi
    simp only [processLost, List.get?_map, List.get?_range hi,
      Option.map_some']
    rw [serviceSeq_spec]

/-- C3 witness: a two-element request straddling the wrap boundary,
`first_seq = 0xFFFF`, `n = 2`, against an empty backlog. -/
theorem C3_lost_request_wrap_witness :
    (0xFFFF : Nat) < 2 ^ 16 ∧ (2 : Nat) < 2 ^ 16 ∧
    2 ^ 16 < 0xFFFF + 2 ∧
    ((processLost [] 0xFFFF 2).length = 2 ∧
     ∀ i, i < 2 →
       (processLost [] 0xFFFF 2).get? i =
         some ((0xFFFF + i) % 2 ^ 16,
           match ([] : List (Option BacklogEntry)).getD
               (((0xFFFF + i) % 2 ^ 16) % MAX_BACKLOG) none with
           | some e =>
               if e.seq_number = (0xFFFF + i) % 2 ^ 16 then
                 RetransmitAction.sent e.packet
               else RetransmitAction.outOfBacklog
           | none =>
               if (0xFFFF + i) % 2 ^ 16 = 0 then RetransmitAction.missed
               else RetransmitAction.outOfBacklog)) :=
  ⟨by decide, by decide, by decide,
    C3_lost_request_wrap [] 0xFFFF 2 (by decide) (by decide) (by decide)⟩

/-- C4 counterexample: the claim says an empty slot is logged as
missed.  With an entirely empty backlog, the request for seq 1 hits an
empty slot, yet the `unwrap_or(0)` guard makes it take the
out-of-backlog branch instead of the missed branch. -/
theorem C4_counterexample :
    processLost (List.replicate 512 (none : Option BacklogEntry)) 1 1 =
      [(1, RetransmitAction.outOfBacklog)] := by decide

/-- C4 (amended): for each requested sequence number `s`, if the slot
at `s mod MAX_BACKLOG` stores an entry whose seq equals `s` the
responder sends exactly the stored packet bytes (wrapped in the
retransmission envelope, incrementing the retransmit counter); if the
slot is empty and `s = 0` it counts the packet as missed; if the slot
is empty and `s ≠ 0`, or stores a different seq, it logs out-of-backlog;
nothing is sent in the last two cases. -/
theorem C4_slot_trichotomy (backlog : List (Option BacklogEntry))
    (s : Nat) :
    serviceSeq backlog s =
      match backlog.getD (s % MAX_BACKLOG) none with
      | some e =>
          if e.seq_number = s then RetransmitAction.sent e.packet
          else RetransmitAction.outOfBacklog
      | none =>
          if s = 0 then RetransmitAction.missed
          else RetransmitAction.outOfBacklog :=
  serviceSeq_spec backlog s

end Raop

namespace Raop

/-- C5 counterexample: the claim says the status mutex is released
before the SYNC packet is sent.  In the loop body the send executes
with the status lock held (the guard is dropped only on line 129,
after the awaited send on line 126), and at no point does a send
execute with the lock released. -/
theorem C5_counterexample :
    (SyncInstr.sendControl, true) ∈ runLockTrace syncLoopBody false ∧
    (SyncInstr.sendControl, false) ∉ runLockTrace syncLoopBody false := by
  decide

/-- C5 (amended): in every iteration of the sync emitter loop the
status mutex is acquired before `head_ts` is read, is still held while
the SYNC packet is sent on the control socket, and is released only
after the send completes, before the one-second delay. -/
theorem C5_lock_across_send :
    ∀ e ∈ runLockTrace syncLoopBody false,
      (e.1 = SyncInstr.readHeadTs → e.2 = true) ∧
      (e.1 = SyncInstr.sendControl → e.2 = true) ∧
      (e.1 = SyncInstr.delaySecond → e.2 = false) := by decide

/-- C5 witness: the amended lock-discipline theorem applied to the send
instruction of the concrete loop body. -/
theorem C5_lock_across_send_witness :
    (SyncInstr.sendControl, true) ∈ runLockTrace syncLoopBody false ∧
    (((SyncInstr.sendControl, true) : SyncInstr × Bool).1 =
        SyncInstr.readHeadTs →
      ((SyncInstr.sendControl, true) : SyncInstr × Bool).2 = true) ∧
    (((SyncInstr.sendControl, true) : SyncInstr × Bool).1 =
        SyncInstr.sendControl →
      ((SyncInstr.sendControl, true) : SyncInstr × Bool).2 = true) ∧
    (((SyncInstr.sendControl, true) : SyncInstr × Bool).1 =
        SyncInstr.delaySecond →
      ((SyncInstr.sendControl, true) : SyncInstr × Bool).2 = false) :=
  ⟨by decide,
    C5_lock_across_send (SyncInstr.sendControl, true) (by decide)⟩

end Raop

namespace Raop

/-- C1 counterexample: a request executed on a connected session whose
response status line carries code 404 does not return a
`ProtocolFailure{code, reason}` value — `exec_request` panics with
"request failed" (`rtsp_client.rs` line 269), aborting the task, so no
error value reaches the caller and the session is not reusable. -/
theorem C1_counterexample :
    (execRequest ⟨"rtsp://10.0.0.2/1", 0, [], none, "ua"⟩ "OPTIONS"
        Body.none [] (some "*")
        ⟨true, "RTSP/1.0 404 Not Found\r\n", [], ""⟩).2.2 =
      ReqOutcome.panicked "request failed" := by decide

/-- C1 (amended): whenever the second space-separated token of the
status line is not `"200"`, `exec_request` panics with
"request failed" instead of returning; the only state change is the
CSeq increment performed before emission. -/
theorem C1_non200_panics (st : ClientState) (cmd : String) (body : Body)
    (hdrs : List (String × String)) (url : Option String)
    (resp : ResponseScript) (code : String)
    (hw : resp.write_ok = true)
    (hc : (rustSplitn 3 ' ' resp.status_line)[1]? = some code)
    (h200 : code ≠ "200") :
    execRequest st cmd body hdrs url resp =
      (requestLines st cmd body hdrs url,
        { st with cseq := st.cseq + 1 },
        ReqOutcome.panicked "request failed") := by
  simp [execRequest, execResponse, hw, hc, h200]

/-- C1 witness: the non-200 panic theorem applied to a concrete 404
response. -/
theorem C1_non200_panics_witness :
    (ResponseScript.mk true "RTSP/1.0 404 Not Found\r\n" [] "").write_ok
        = true ∧
    (rustSplitn 3 ' '
        (ResponseScript.mk true "RTSP/1.0 404 Not Found\r\n" []
          "").status_line)[1]? = some "404" ∧
    ("404" : String) ≠ "200" ∧
    execRequest ⟨"rtsp://10.0.0.2/1", 0, [], none, "ua"⟩ "TEARDOWN"
        Body.none [] Option.none
        (ResponseScript.mk true "RTSP/1.0 404 Not Found\r\n" [] "") =
      (requestLines ⟨"rtsp://10.0.0.2/1", 0, [], none, "ua"⟩ "TEARDOWN"
          Body.none [] Option.none,
        { (⟨"rtsp://10.0.0.2/1", 0, [], none, "ua"⟩ : ClientState) with
            cseq := (⟨"rtsp://10.0.0.2/1", 0, [], none, "ua"⟩ :
              ClientState).cseq + 1 },
        ReqOutcome.panicked "request failed") :=
  ⟨rfl, by decide, by decide,
    C1_non200_panics ⟨"rtsp://10.0.0.2/1", 0, [], none, "ua"⟩ "TEARDOWN"
      Body.none [] Option.none
      (ResponseScript.mk true "RTSP/1.0 404 Not Found\r\n" [] "") "404"
      rfl (by decide) (by decide)⟩

/-- Case analysis of `setup`: either it fails (transport error, non-200
status, header panic, or missing `Session` header), leaving the state
unchanged apart from the CSeq increment, or it succeeds and the single
further field it writes is the session token, taken from the first
case-insensitive `Session` response header. -/
theorem setup_cases (st : ClientState) (cp tp : Nat)
    (resp : ResponseScript) :
    ((setup st cp tp resp).1 = { st with cseq := st.cseq + 1 } ∧
      ∀ hs, (setup st cp tp resp).2 ≠ SetupOutcome.ok hs) ∨
    (∃ hs h, h ∈ hs ∧ asciiLower h.1 = "session" ∧
      setup st cp tp resp =
        ({ st with cseq := st.cseq + 1, session := some h.2 },
          SetupOutcome.ok hs)) := by
  unfold setup execRequest
  cases hout : execResponse resp with
  | ok hs content =>
      cases hfind : hs.find? (fun h => asciiLower h.1 = "session") with
      | some h =>
          right
          refine ⟨hs, h, List.mem_of_find?_eq_some hfind, ?_, ?_⟩
          · simpa using List.find?_some hfind
          · simp [hout, hfind]
      | none =>
          left
          exact ⟨by simp [hout, hfind], fun hs2 => by simp [hout, hfind]⟩
  | ioError =>
      left
      exact ⟨by simp [hout], fun hs2 => by simp [hout]⟩
  | panicked m =>
      left
      exact ⟨by simp [hout], fun hs2 => by simp [hout]⟩

/-- C2 counterexample: the claim says a failed request leaves no
observable state change, yet a SETUP whose socket write fails has
already incremented the CSeq counter (`rtsp_client.rs` line 231 runs
before the socket write on line 253), so the state differs. -/
theorem C2_counterexample :
    (setup ⟨"rtsp://10.0.0.2/1", 0, [], none, "ua"⟩ 6001 6002
        ⟨false, "", [], ""⟩).1 ≠
      (⟨"rtsp://10.0.0.2/1", 0, [], none, "ua"⟩ : ClientState) ∧
    (setup ⟨"rtsp://10.0.0.2/1", 0, [], none, "ua"⟩ 6001 6002
        ⟨false, "", [], ""⟩).2 = SetupOutcome.ioError := by decide

/-- C2 (amended): every request mutates exactly the CSeq counter,
incremented before emission, and nothing else; beyond that, a failed
request (transport error, non-200 status, malformed header, or missing
`Session` header on SETUP) mutates no further state, and SETUP writes
the session token only on a 200 response that contains a `Session`
header, storing that header's value. -/
theorem C2_request_frame :
    (∀ st cmd body hdrs url resp,
      (execRequest st cmd body hdrs url resp).2.1 =
        { st with cseq := st.cseq + 1 }) ∧
    (∀ st cp tp resp,
      (∀ hs, (setup st cp tp resp).2 ≠ SetupOutcome.ok hs) →
      (setup st cp tp resp).1 = { st with cseq := st.cseq + 1 }) ∧
    (∀ st cp tp resp hs,
      (setup st cp tp resp).2 = SetupOutcome.ok hs →
      ∃ h, h ∈ hs ∧ asciiLower h.1 = "session" ∧
        (setup st cp tp resp).1 =
          { st with cseq := st.cseq + 1, session := some h.2 }) := by
  refine ⟨fun st cmd body hdrs url resp => rfl, ?_, ?_⟩
  · intro st cp tp resp hfail
    rcases setup_cases st cp tp resp with ⟨h1, _⟩ | ⟨hs, h, _, _, heq⟩
    · exact h1
    · exact absurd (by rw [heq]) (hfail hs)
  · intro st cp tp resp hs hok
    rcases setup_cases st cp tp resp with ⟨_, h2⟩ | ⟨hs2, h, hmem, hlow, heq⟩
    · exact absurd hok (h2 hs)
    · rw [heq] at hok
      obtain rfl : hs2 = hs := by injection hok
      exact ⟨h, hmem, hlow, by rw [heq]⟩

/-- C2 witness: the frame theorem applied to a concrete failing SETUP
(socket write fails) and a concrete successful SETUP. -/
theorem C2_request_frame_witness :
    ((∀ hs, (setup ⟨"rtsp://10.0.0.2/1", 0, [], none, "ua"⟩ 6001 6002
        ⟨false, "", [], ""⟩).2 ≠ SetupOutcome.ok hs) ∧
     (setup ⟨"rtsp://10.0.0.2/1", 0, [], none, "ua"⟩ 6001 6002
        ⟨false, "", [], ""⟩).1 =
      { (⟨"rtsp://10.0.0.2/1", 0, [], none, "ua"⟩ : ClientState) with
          cseq := (⟨"rtsp://10.0.0.2/1", 0, [], none, "ua"⟩ :
            ClientState).cseq + 1 }) ∧
    ((setup ⟨"rtsp://10.0.0.2/1", 0, [], none, "ua"⟩ 6001 6002
        ⟨true, "RTSP/1.0 200 OK\r\n", ["Session: 1A2B\r\n"], ""⟩).2 =
      SetupOutcome.ok [("Session", "1A2B")] ∧
     ∃ h, h ∈ [(("Session" : String), ("1A2B" : String))] ∧
       asciiLower h.1 = "session" ∧
       (setup ⟨"rtsp://10.0.0.2/1", 0, [], none, "ua"⟩ 6001 6002
          ⟨true, "RTSP/1.0 200 OK\r\n", ["Session: 1A2B\r\n"], ""⟩).1 =
        { (⟨"rtsp://10.0.0.2/1", 0, [], none, "ua"⟩ : ClientState) with
            cseq := (⟨"rtsp://10.0.0.2/1", 0, [], none, "ua"⟩ :
              ClientState).cseq + 1,
            session := some h.2 }) :=
  And.intro
    (And.intro (fun hs h => nomatch h)
      (C2_request_frame.2.1 ⟨"rtsp://10.0.0.2/1", 0, [], none, "ua"⟩ 6001
        6002 ⟨false, "", [], ""⟩ (fun hs h => nomatch h)))
    (And.intro (by decide)
      (C2_request_frame.2.2 ⟨"rtsp://10.0.0.2/1", 0, [], none, "ua"⟩ 6001
        6002 ⟨true, "RTSP/1.0 200 OK\r\n", ["Session: 1A2B\r\n"], ""⟩
        [("Session", "1A2B")] (by decide)))

end Raop

namespace Raop

/-- When a session token is stored, every request emission includes the
`Session` header line (`rtsp_client.rs` lines 239-241). -/
theorem sessionLine_mem (st : ClientState) (tok : String)
    (h : st.session = some tok) (cmd : String) (body : Body)
    (hdrs : List (String × String)) (url : Option String) :
    ("Session: " ++ tok) ∈ requestLines st cmd body hdrs url := by
  simp [requestLines, h]

/-- With a session token stored, any operation emits a request carrying
the `Session` header for that token, and the resulting state again has
some session token stored. -/
theorem runOp_some_session (st : ClientState) (op : RtspOp)
    (resp : ResponseScript) (tok : String) (h : st.session = some tok) :
    ∃ req st' cont, runOp st op resp = (some req, st', cont) ∧
      ("Session: " ++ tok) ∈ req ∧ ∃ t', st'.session = some t' := by
  cases op with
  | setup cp tp =>
      refine ⟨_, _, _, rfl, sessionLine_mem st tok h _ _ _ _, ?_⟩
      rcases setup_cases st cp tp resp with ⟨h1, _⟩ | ⟨hs, hh, _, _, heq⟩
      · exact ⟨tok, by rw [h1]; exact h⟩
      · exact ⟨hh.2, by rw [heq]⟩
  | record sq ts =>
      have hrun : runOp st (RtspOp.record sq ts) resp =
          (some (requestLines st "RECORD" Body.none
              [("Range", "npt=0-"),
               ("RTP-Info",
                 "seq=" ++ toString sq ++ ";rtptime=" ++ toString ts)]
              Option.none),
            { st with cseq := st.cseq + 1 },
            match execResponse resp with
            | ReqOutcome.ok _ _ => true
            | _ => false) := by
        simp [runOp, h, opRequestParts, execRequest]
      exact ⟨_, _, _, hrun, sessionLine_mem st tok h _ _ _ _, tok, h⟩
  | options hdrs2 =>
      exact ⟨requestLines st "OPTIONS" Body.none hdrs2 (some "*"),
        { st with cseq := st.cseq + 1 }, _, rfl,
        sessionLine_mem st tok h _ _ _ _, tok, h⟩
  | announce_sdp sdp =>
      exact ⟨requestLines st "ANNOUNCE" (Body.text "application/sdp" sdp)
          [] Option.none,
        { st with cseq := st.cseq + 1 }, _, rfl,
        sessionLine_mem st tok h _ _ _ _, tok, h⟩
  | set_parameter p =>
      exact ⟨requestLines st "SET_PARAMETER"
          (Body.text "text/parameters" p) [] Option.none,
        { st with cseq := st.cseq + 1 }, _, rfl,
        sessionLine_mem st tok h _ _ _ _, tok, h⟩
  | set_meta_data ts meta =>
      exact ⟨requestLines st "SET_PARAMETER"
          (Body.blob "application/x-dmap-tagged" meta)
          [("RTP-Info", "rtptime=" ++ toString ts)] Option.none,
        { st with cseq := st.cseq + 1 }, _, rfl,
        sessionLine_mem st tok h _ _ _ _, tok, h⟩
  | flush sq ts =>
      exact ⟨requestLines st "FLUSH" Body.none
          [("RTP-Info",
            "seq=" ++ toString sq ++ ";rtptime=" ++ toString ts)]
          Option.none,
        { st with cseq := st.cseq + 1 }, _, rfl,
        sessionLine_mem st tok h _ _ _ _, tok, h⟩
  | teardown =>
      exact ⟨requestLines st "TEARDOWN" Body.none [] Option.none,
        { st with cseq := st.cseq + 1 }, _, rfl,
        sessionLine_mem st tok h _ _ _ _, tok, h⟩

/-- C7: once a session token is stored (as SETUP does on success),
every request subsequently emitted on the session — across any sequence
of further operations and responses — carries a `Session: <token>`
header with the token stored at the moment that request was emitted. -/
theorem C7_session_header (ops : List (RtspOp × ResponseScript)) :
    ∀ st tok, st.session = some tok →
      ∀ p ∈ runOps st ops, ∃ t, p.1 = some t ∧ ("Session: " ++ t) ∈ p.2 := by
  induction ops with
  | nil =>
      intro st tok h p hp
      simp [runOps] at hp
  | cons hd tl ih =>
      intro st tok h p hp
      obtain ⟨op, resp⟩ := hd
      obtain ⟨req, st', cont, hrun, hmem, t', hsess⟩ :=
        runOp_some_session st op resp tok h
      rw [runOps, hrun] at hp
      rcases List.mem_cons.mp hp with rfl | hp'
      · exact ⟨tok, h, hmem⟩
      · cases cont with
        | false => simp at hp'
        | true => exact ih st' t' hsess p hp'

/-- C7 witness: the session-header invariant applied to a concrete
post-SETUP state running a TEARDOWN. -/
theorem C7_session_header_witness :
    (ClientState.mk "rtsp://10.0.0.2/1" 4 [] (some "1A2B")
        "ua").session = some "1A2B" ∧
    ∀ p ∈ runOps (ClientState.mk "rtsp://10.0.0.2/1" 4 [] (some "1A2B") "ua")
        [(RtspOp.teardown,
          ResponseScript.mk true "RTSP/1.0 200 OK\r\n" [] "")],
      ∃ t, p.1 = some t ∧ ("Session: " ++ t) ∈ p.2 :=
  ⟨rfl,
    C7_session_header
      [(RtspOp.teardown, ResponseScript.mk true "RTSP/1.0 200 OK\r\n" [] "")]
      (ClientState.mk "rtsp://10.0.0.2/1" 4 [] (some "1A2B") "ua")
      "1A2B" rfl⟩

end Raop
